import Mathlib

/-!
Verification development for the Auto Subtitle Generator repository
(`main.py`, `obrabotka.py`).

The Python sources are shallowly embedded: pure computations become Lean
functions, Python exceptions become `Except PyError`, external library
calls (ffmpeg, librosa, pydub, soundfile, noisereduce, the file system and
the missing collaborator modules `transcription_manager`, `post_processor`,
`formatter_manager`, `quality_checker`) become explicit outcome parameters
of type `Except PyError _`, so a run of the pipeline is a pure function of
the configuration, the input path and the outcomes of its external calls.
Python `float` values (durations, sizes) are embedded as `ℚ`.
-/

/-- Embedding of the Python exceptions that the two source files can raise
or catch.  `str` renders the exception the way `str(e)` is used in
`main.py` (the exact Python textual form of `KeyError` adds quotes; the
payload is kept verbatim, which is all the claims inspect). -/
inductive PyError where
  | keyError (key : String)
  | valueError (msg : String)
  | importError (msg : String)
  | other (msg : String)
deriving DecidableEq, Repr

def PyError.str : PyError → String
  | .keyError k => k
  | .valueError m => m
  | .importError m => m
  | .other m => m

def PyError.isKeyError : PyError → Bool
  | .keyError _ => true
  | _ => false

def eIsOk {α : Type} : Except PyError α → Bool
  | .ok _ => true
  | .error _ => false

deriving instance DecidableEq for Except

/-! ## Path helpers

Embedding of the `pathlib.Path` accessors used by the sources:
`Path(p).name`, `Path(p).suffix`, `Path(p).stem`, `Path(p).parent`,
and `str.lower()`. -/

/-- Characters after the last slash. -/
def lastComponentChars (cs : List Char) : List Char :=
  (cs.reverse.takeWhile (· ≠ '/')).reverse

/-- `Path(p).name`: the substring after the last slash. -/
def pathName (p : String) : String :=
  String.mk (lastComponentChars p.toList)

/-- Index of the last dot of a character list, if any. -/
def lastDotIdx : List Char → Option Nat
  | [] => none
  | c :: rest =>
    match lastDotIdx rest with
    | some i => some (i + 1)
    | none => if c = '.' then some 0 else none

/-- `Path(p).suffix`: the final dot-extension of the last component; empty
when the name has no dot, starts with its only dot, or ends with a dot
(pathlib: the dot index must satisfy `0 < i < len(name) - 1`). -/
def pathSuffix (p : String) : String :=
  let cs := (pathName p).toList
  match lastDotIdx cs with
  | some i => if 0 < i ∧ i < cs.length - 1 then String.mk (cs.drop i) else ""
  | none => ""

/-- `Path(p).stem`: the last component without its suffix. -/
def pathStem (p : String) : String :=
  let n := pathName p
  let cs := n.toList
  match lastDotIdx cs with
  | some i => if 0 < i ∧ i < cs.length - 1 then String.mk (cs.take i) else n
  | none => n

/-- `Path(p).parent` rendered as a string; `"."` when there is no slash
(the relative paths the pipeline builds never end in a slash). -/
def pathParent (p : String) : String :=
  let cs := p.toList
  if cs.contains '/' then
    String.mk ((cs.reverse.dropWhile (· ≠ '/')).drop 1).reverse
  else "."

/-- Python `str.startswith`, structurally on the character lists. -/
def strStartsWith (s pre : String) : Bool :=
  pre.toList.isPrefixOf s.toList

/-- `s.lower()` (ASCII case folding, which covers every extension the
sources compare against). -/
def lowerStr (s : String) : String :=
  String.mk (s.toList.map Char.toLower)

/-! ## Configuration (`main.py` lines 33-52, consumed as a Python dict)

A YAML config is a dict; looking up a missing top-level key raises
`KeyError`.  The three sections the sources read are embedded as `Option`
fields, with lookup functions reproducing the `KeyError`. -/

structure SubtitleSettings where
  max_chars_per_line : Nat
  max_lines : Nat
  min_duration : ℚ
  max_duration : ℚ
deriving DecidableEq, Repr

structure AudioPreprocessing where
  normalize : Bool
  noise_reduction : Bool
  channels : Nat
  target_sample_rate : Nat
deriving DecidableEq, Repr

structure OutputFormats where
  enabled : List String
deriving DecidableEq, Repr

structure Config where
  subtitle_settings : Option SubtitleSettings
  audio_preprocessing : Option AudioPreprocessing
  output_formats : Option OutputFormats
deriving DecidableEq, Repr

/-- `self.config['audio_preprocessing']` — `KeyError` when absent. -/
def Config.getAudioPreprocessing (c : Config) : Except PyError AudioPreprocessing :=
  match c.audio_preprocessing with
  | some a => .ok a
  | none => .error (.keyError "audio_preprocessing")

/-- `self.config['output_formats']` — `KeyError` when absent. -/
def Config.getOutputFormats (c : Config) : Except PyError OutputFormats :=
  match c.output_formats with
  | some a => .ok a
  | none => .error (.keyError "output_formats")

/-- `AutoSubtitleGenerator.get_default_config` (`main.py` lines 43-52):
only the `subtitle_settings` section is present. -/
def get_default_config : Config :=
  { subtitle_settings := some
      { max_chars_per_line := 42
        max_lines := 2
        min_duration := 1
        max_duration := 4 }
    audio_preprocessing := none
    output_formats := none }

/-- `AutoSubtitleGenerator.load_config` (`main.py` lines 33-41): the whole
load is wrapped in `try/except Exception`; on any failure the built-in
default configuration is installed.  The outcome of opening and parsing
the YAML file is the external parameter. -/
def load_config (loaded : Except PyError Config) : Config :=
  match loaded with
  | .ok c => c
  | .error _ => get_default_config

structure GenState where
  config : Config
deriving DecidableEq, Repr

/-- `AutoSubtitleGenerator.__init__` (`main.py` lines 29-31): the only call
site of `load_config`; `self.config` is never reassigned afterwards. -/
def AutoSubtitleGenerator.init (loaded : Except PyError Config) : GenState :=
  { config := load_config loaded }

/-! ## Audio processing (`obrabotka.py`)

`AudioProcessor` keeps one temp directory, created by `tempfile.mkdtemp`
in `__init__` (line 39).  Its presence on disk is the resource tracked by
`AudioProcessorState`. -/

structure AudioInfo where
  source_path : String
  processed_path : String
  duration : ℚ
  sample_rate : Nat
  channels : Nat
  format : String
  size_mb : ℚ
deriving DecidableEq, Repr

/-- The values the external libraries (librosa, soundfile, `os.path`)
report for a file inside `analyze_audio`; `f.frames` is read by the
source but never stored, so it is omitted. -/
structure AudioMeasurement where
  duration : ℚ
  sample_rate : Nat
  channels : Nat
  format : String
  size_mb : ℚ
deriving DecidableEq, Repr

/-- A loaded `pydub.AudioSegment`: only the observables the sources use
(`len(audio)` in milliseconds, `channels`, `frame_rate`). -/
structure AudioSeg where
  lengthMs : Nat
  channels : Nat
  frame_rate : Nat
deriving DecidableEq, Repr

structure AudioProcessorState where
  tempDir : String
  tempDirPresent : Bool
deriving DecidableEq, Repr

/-- `AudioProcessor.__init__` (`obrabotka.py` lines 37-40): creates the
temp directory. -/
def AudioProcessor.initState (tempDir : String) : AudioProcessorState :=
  { tempDir := tempDir, tempDirPresent := true }

/-- `AudioProcessor.cleanup_temp_files` (`obrabotka.py` lines 310-318):
removes the temp directory if it exists; an `rmtree` failure is caught and
only logged.  This is the only operation in either source file that
removes the temp directory, and its only caller is the destructor
`__del__` (lines 320-322). -/
def cleanup_temp_files (st : AudioProcessorState) (rmtreeRes : Except PyError Unit) :
    AudioProcessorState :=
  if st.tempDirPresent then
    match rmtreeRes with
    | .ok _ => { tempDir := st.tempDir, tempDirPresent := false }
    | .error _ => st
  else st

def SUPPORTED_FORMATS : List String :=
  [".mp3", ".wav", ".m4a", ".flac", ".ogg", ".mp4", ".avi", ".mkv", ".mov"]

def video_extensions : List String :=
  [".mp4", ".avi", ".mkv", ".mov", ".wmv", ".flv"]

/-- `AudioProcessor.is_supported_format` (lines 82-85). -/
def is_supported_format (filepath : String) : Bool :=
  SUPPORTED_FORMATS.contains (lowerStr (pathSuffix filepath))

/-- `AudioProcessor.is_video_file` (lines 87-90). -/
def is_video_file (filepath : String) : Bool :=
  video_extensions.contains (lowerStr (pathSuffix filepath))

/-- `AudioProcessor.analyze_audio` (lines 92-120): on success builds the
`AudioInfo` dataclass with `processed_path=""`; any library failure is
logged and re-raised. -/
def analyze_audio (filepath : String) (measured : Except PyError AudioMeasurement) :
    Except PyError AudioInfo :=
  match measured with
  | .error e => .error e
  | .ok m =>
    .ok { source_path := filepath
          processed_path := ""
          duration := m.duration
          sample_rate := m.sample_rate
          channels := m.channels
          format := m.format
          size_mb := m.size_mb }

/-- `AudioProcessor.extract_audio_from_video` (lines 122-148).  The
`audio_preprocessing` lookups happen while the ffmpeg output spec is
built, before `ffmpeg.run`; a `KeyError` there is not caught by the
`except ffmpeg.Error` clause and propagates, as does an `ffmpeg.Error`
of the run itself (logged then re-raised). -/
def extract_audio_from_video (cfg : Config) (video_path : String) (output_dir : String)
    (ffmpegRun : Except PyError Unit) : Except PyError String :=
  let output_path := output_dir ++ "/" ++ pathStem video_path ++ "_audio.wav"
  match cfg.getAudioPreprocessing with
  | .error e => .error e
  | .ok _ =>
    match ffmpegRun with
    | .error e => .error e
    | .ok _ => .ok output_path

/-- `AudioProcessor.prepare_audio_file` (lines 150-187).
`AudioSegment.from_file` runs first (line 161), then the
`audio_preprocessing` lookups (lines 164-165), then the export
(lines 176-180); the channel/sample-rate conversions change audio content
only, not the returned path.  Every exception is logged and re-raised. -/
def prepare_audio_file (cfg : Config) (audio_path : String) (output_dir : String)
    (fromFileRes : Except PyError AudioSeg) (exportRes : Except PyError Unit) :
    Except PyError String :=
  let output_path := output_dir ++ "/" ++ pathStem audio_path ++ "_prepared.wav"
  match fromFileRes with
  | .error e => .error e
  | .ok _ =>
    match cfg.getAudioPreprocessing with
    | .error e => .error e
    | .ok _ =>
      match exportRes with
      | .error e => .error e
      | .ok _ => .ok output_path

/-- `AudioProcessor.normalize_audio` (lines 189-218): the whole body is a
`try` whose `except Exception` returns the original `audio_path`, so a
failure of loading, exporting, or removing the temporary original
degrades to the unchanged input path. -/
def normalize_audio (tempDir : String) (audio_path : String)
    (fromFileRes : Except PyError AudioSeg) (exportRes : Except PyError Unit)
    (removeRes : Except PyError Unit) : String :=
  let output_path := pathParent audio_path ++ "/" ++ pathStem audio_path ++ "_normalized.wav"
  match fromFileRes with
  | .error _ => audio_path
  | .ok _ =>
    match exportRes with
    | .error _ => audio_path
    | .ok _ =>
      if strStartsWith audio_path tempDir then
        match removeRes with
        | .error _ => audio_path
        | .ok _ => output_path
      else output_path

/-- `AudioProcessor.reduce_noise` (lines 220-265): `import noisereduce`
failing is caught by `except ImportError` and skips noise reduction; any
other failure is caught by `except Exception`; both return the original
path.  The noise-clip selection (lines 234-239) only affects audio
content, not the returned path. -/
def reduce_noise (tempDir : String) (audio_path : String)
    (importRes : Except PyError Unit) (loadRes : Except PyError (Nat × Nat))
    (nrRes : Except PyError Unit) (writeRes : Except PyError Unit)
    (removeRes : Except PyError Unit) : String :=
  match importRes with
  | .error _ => audio_path
  | .ok _ =>
    match loadRes with
    | .error _ => audio_path
    | .ok _ =>
      match nrRes with
      | .error _ => audio_path
      | .ok _ =>
        match writeRes with
        | .error _ => audio_path
        | .ok _ =>
          let output_path :=
            pathParent audio_path ++ "/" ++ pathStem audio_path ++ "_denoised.wav"
          if strStartsWith audio_path tempDir then
            match removeRes with
            | .error _ => audio_path
            | .ok _ => output_path
          else output_path

/-- Outcomes of the external library calls a single
`AudioProcessor.process` run can make. -/
structure ProcessExternals where
  measure : Except PyError AudioMeasurement
  ffmpegRun : Except PyError Unit
  fromFile : Except PyError AudioSeg
  exportPrepared : Except PyError Unit
  normFromFile : Except PyError AudioSeg
  normExport : Except PyError Unit
  normRemove : Except PyError Unit
  nrImport : Except PyError Unit
  nrLoad : Except PyError (Nat × Nat)
  nrReduce : Except PyError Unit
  nrWrite : Except PyError Unit
  nrRemove : Except PyError Unit

/-- `AudioProcessor.process` (lines 42-80): format check, analysis,
video/audio preparation, then the two optional enhancement passes guarded
by the `audio_preprocessing` lookups of lines 71 and 75.  The
`audio_info.processed_path = ...` assignments of lines 68, 73 and 77 are
the record updates. -/
def AudioProcessor.process (cfg : Config) (tempDir : String) (input_path : String)
    (output_dir : String) (px : ProcessExternals) : Except PyError AudioInfo :=
  if !(is_supported_format input_path) then
    .error (.valueError ("Неподдерживаемый формат файла: " ++ input_path))
  else
    match analyze_audio input_path px.measure with
    | .error e => .error e
    | .ok info0 =>
      match (if is_video_file input_path then
               extract_audio_from_video cfg input_path output_dir px.ffmpegRun
             else
               prepare_audio_file cfg input_path output_dir px.fromFile px.exportPrepared) with
      | .error e => .error e
      | .ok processed =>
        let info1 := { info0 with processed_path := processed }
        match cfg.getAudioPreprocessing with
        | .error e => .error e
        | .ok ap =>
          let processed2 :=
            if ap.normalize then
              normalize_audio tempDir processed px.normFromFile px.normExport px.normRemove
            else processed
          let info2 :=
            if ap.normalize then { info1 with processed_path := processed2 } else info1
          match cfg.getAudioPreprocessing with
          | .error e => .error e
          | .ok ap2 =>
            let processed3 :=
              if ap2.noise_reduction then
                reduce_noise tempDir processed2 px.nrImport px.nrLoad px.nrReduce
                  px.nrWrite px.nrRemove
              else processed2
            let info3 :=
              if ap2.noise_reduction then { info2 with processed_path := processed3 } else info2
            .ok info3

/-- Python `range(0, stop, step)` for a positive step: the multiples of
`step` below `stop`, of which there are `⌈stop / step⌉ = (stop + step - 1) / step`. -/
def pyRangeStep (stop step : Nat) : List Nat :=
  (List.range ((stop + step - 1) / step)).map (fun k => k * step)

/-- `AudioProcessor.split_large_file` (lines 267-308), reduced to the
part bounds it slices: `audio[i : min(i + max_duration_ms, duration_ms)]`
for `i in range(0, duration_ms, max_duration_ms)`.  The per-part exports
are external writes whose failure is re-raised (lines 306-308) and do not
alter the computed bounds. -/
def split_large_file (audioLenMs : Nat) (max_duration : Nat) : List (Nat × Nat) :=
  let max_duration_ms := max_duration * 1000
  (pyRangeStep audioLenMs max_duration_ms).map
    (fun i => (i, min (i + max_duration_ms) audioLenMs))

/-! ## Pipeline data (`main.py`)

The collaborator modules `transcription_manager`, `post_processor`,
`formatter_manager` and `quality_checker` are imported by `main.py` but
are not part of the two source files; their per-call outcomes are
external parameters.  The shapes below are the ones `main.py` reads from
their results (`processed_data['segments']`, `quality_report['errors']`,
`quality_report['total_issues']`, `transcription.get('language', ...)`,
and the audio-info fields). -/

structure Segment where
  start : ℚ
  stop : ℚ
  text : String
deriving DecidableEq, Repr

structure QualityReport where
  total_issues : Nat
  errors : List String
  warnings : List String
deriving DecidableEq, Repr

structure Transcription where
  provider : Option String
  language : Option String
deriving DecidableEq, Repr

structure ProcessedData where
  segments : List Segment
  words : Option (List String)
deriving DecidableEq, Repr

structure TranscriptionStats where
  words : Nat
  segments : Nat
  provider : String
  language : String
deriving DecidableEq, Repr

/-- The stage of `process_file` at which an exception was raised; the
stages follow the numbered steps of `main.py` lines 87-150. -/
inductive Stage where
  | createOutput
  | prepareAudio
  | selectProvider
  | transcribe
  | postProcess
  | qualityCheck
  | render
  | report
deriving DecidableEq, Repr

/-- The success dict of `main.py` lines 154-167. -/
structure OkResult where
  input_file : String
  output_files : List (String × String)
  report : String
  audio_info : AudioInfo
  transcription_stats : TranscriptionStats
  quality_report : QualityReport
deriving DecidableEq, Repr

/-- The return value of `process_file`: the success dict, or the failure
dict `{'success': False, 'error': str(e), 'input_file': input_path}` of
lines 171-175. -/
inductive ProcResult where
  | ok (r : OkResult)
  | fail (error : String) (input_file : String)
deriving DecidableEq, Repr

def ProcResult.success : ProcResult → Bool
  | .ok _ => true
  | .fail _ _ => false

def ProcResult.input_file : ProcResult → String
  | .ok r => r.input_file
  | .fail _ f => f

/-- `fail['error']`; only read on failure results. -/
def ProcResult.errorMsg : ProcResult → String
  | .ok _ => ""
  | .fail e _ => e

/-- `r['audio_info']['duration']`; only read on success results. -/
def ProcResult.audioDuration : ProcResult → ℚ
  | .ok r => r.audio_info.duration
  | .fail _ _ => 0

/-- `r['transcription_stats']['words']`; only read on success results. -/
def ProcResult.statWords : ProcResult → Nat
  | .ok r => r.transcription_stats.words
  | .fail _ _ => 0

/-- `main.py` lines 118-124: auto-correction is applied to the segments
only inside `if quality_report['total_issues'] > 0:` and then only
`if quality_report['errors']:` (non-empty list); otherwise
`processed_data['segments']` is left as it was. -/
def correctedSegments (auto_correct : List Segment → List Segment)
    (quality_report : QualityReport) (segments : List Segment) : List Segment :=
  if quality_report.total_issues > 0 then
    if quality_report.errors.isEmpty then segments
    else auto_correct segments
  else segments

/-- The format-generation loop of `main.py` lines 128-139: for each
enabled format, build the content (`formatter_manager.format`, external)
and write the file (external); the first exception aborts the loop and
propagates to the handler. -/
def renderLoop (input_path output_dir : String) (formats : List String)
    (segments : List Segment)
    (fmtRes : String → List Segment → Except PyError String)
    (writeRes : String → Except PyError Unit) :
    Except PyError (List (String × String)) :=
  match formats with
  | [] => .ok []
  | f :: rest =>
    let output_path := output_dir ++ "/" ++ pathStem input_path ++ "." ++ f
    match fmtRes f segments with
    | .error e => .error e
    | .ok _content =>
      match writeRes output_path with
      | .error e => .error e
      | .ok _ =>
        match renderLoop input_path output_dir rest segments fmtRes writeRes with
        | .error e => .error e
        | .ok others => .ok ((f, output_path) :: others)

/-- Outcomes of everything external a single `process_file` run touches:
the mkdir of step 1, the audio externals of step 2, and one outcome per
collaborator call.  `auto_correct` is the quality checker's corrective
pass, modelled from the spec as a pure function of the segment sequence
(spec 4.4 requires it to be deterministic and total; the module itself is
not among the source files). -/
structure FileExternals where
  mkdirRes : Except PyError Unit
  prep : ProcessExternals
  selectRes : Except PyError String
  transcribeRes : Except PyError Transcription
  postRes : Except PyError ProcessedData
  checkRes : Except PyError QualityReport
  auto_correct : List Segment → List Segment
  fmtRes : String → List Segment → Except PyError String
  writeRes : String → Except PyError Unit
  reportRes : Except PyError Unit

/-- The `try` body of `process_file` (`main.py` lines 84-167).  Each
raised exception is paired with the stage it was raised in; this pairing
is bookkeeping of the embedding — the handler of lines 169-175 receives
only the exception. -/
def processFileTry (cfg : Config) (tempDir : String) (input_path : String)
    (output_dir : String) (language : Option String) (provider : String)
    (ext : FileExternals) : Except (Stage × PyError) ProcResult :=
  match ext.mkdirRes with
  | .error e => .error (Stage.createOutput, e)
  | .ok _ =>
    match AudioProcessor.process cfg tempDir input_path output_dir ext.prep with
    | .error e => .error (Stage.prepareAudio, e)
    | .ok info =>
      match (if provider = "auto" then ext.selectRes else .ok provider) with
      | .error e => .error (Stage.selectProvider, e)
      | .ok prov =>
        match ext.transcribeRes with
        | .error e => .error (Stage.transcribe, e)
        | .ok transcription =>
          match ext.postRes with
          | .error e => .error (Stage.postProcess, e)
          | .ok pd =>
            match ext.checkRes with
            | .error e => .error (Stage.qualityCheck, e)
            | .ok qr =>
              let segs := correctedSegments ext.auto_correct qr pd.segments
              match cfg.getOutputFormats with
              | .error e => .error (Stage.render, e)
              | .ok ofs =>
                match renderLoop input_path output_dir ofs.enabled segs
                    ext.fmtRes ext.writeRes with
                | .error e => .error (Stage.render, e)
                | .ok output_files =>
                  match ext.reportRes with
                  | .error e => .error (Stage.report, e)
                  | .ok _ =>
                    .ok (ProcResult.ok
                      { input_file := input_path
                        output_files := output_files
                        report := output_dir ++ "/" ++ pathStem input_path ++ "_report.txt"
                        audio_info := info
                        transcription_stats :=
                          { words := (pd.words.getD []).length
                            segments := segs.length
                            provider := prov
                            language := transcription.language.getD "unknown" }
                        quality_report := qr })

/-- `AutoSubtitleGenerator.process_file` (`main.py` lines 70-175): the
`try` body above plus the catch-all handler.  The `AudioProcessorState`
is threaded to record that no statement of the method touches the temp
directory. -/
def process_file (cfg : Config) (input_path : String) (output_dir : String)
    (language : Option String) (provider : String) (ext : FileExternals)
    (st : AudioProcessorState) : ProcResult × AudioProcessorState :=
  match processFileTry cfg st.tempDir input_path output_dir language provider ext with
  | .ok r => (r, st)
  | .error se => (ProcResult.fail se.2.str input_path, st)

/-- The stage at which a `process_file` run raised, if it did. -/
def failedStage (cfg : Config) (tempDir : String) (input_path : String)
    (output_dir : String) (language : Option String) (provider : String)
    (ext : FileExternals) : Option Stage :=
  match processFileTry cfg tempDir input_path output_dir language provider ext with
  | .ok _ => none
  | .error se => some se.1

/-- The exception a `process_file` run raised internally, if any. -/
def raisedError (cfg : Config) (tempDir : String) (input_path : String)
    (output_dir : String) (language : Option String) (provider : String)
    (ext : FileExternals) : Option PyError :=
  match processFileTry cfg tempDir input_path output_dir language provider ext with
  | .ok _ => none
  | .error se => some se.2

/-! ## Batch processing and the batch report (`main.py` lines 228-286) -/

def sep60 : String := String.mk (List.replicate 60 '=')

/-- One line of the failure section: `f"  • \x7bfail['input_file']\x7d: \x7bfail['error']\x7d"`. -/
def failLine (r : ProcResult) : String :=
  "  • " ++ r.input_file ++ ": " ++ r.errorMsg

/-- `AutoSubtitleGenerator.generate_batch_report` (lines 253-286), as the
`report_content` line list it joins and writes.  The Python `:.1f` float
formatting is rendered as the exact rational; the claims only inspect the
count lines and the failure lines.  In Python `total_words/(total_duration/60)`
would raise `ZeroDivisionError` if the total duration were zero, but a
zero-duration success cannot arise: the per-file report (line 217 of the
source) divides by the same duration and would already have failed that
file. -/
def generate_batch_report (results : List ProcResult) : List String :=
  let successful := results.filter (fun r => r.success)
  let failed := results.filter (fun r => !r.success)
  let report1 : List String :=
    [sep60,
     "СВОДНЫЙ ОТЧЕТ ПАКЕТНОЙ ОБРАБОТКИ",
     sep60,
     "\nВсего файлов: " ++ toString results.length,
     "Успешно: " ++ toString successful.length,
     "С ошибками: " ++ toString failed.length,
     "\n--- СТАТИСТИКА ---"]
  let total_duration := (successful.map ProcResult.audioDuration).sum
  let total_words := (successful.map ProcResult.statWords).sum
  let report2 := report1 ++
    (if successful.isEmpty then [] else
      ["Общая длительность: " ++ toString (total_duration / 60) ++ " мин",
       "Всего слов: " ++ toString total_words,
       "Слов в минуту: " ++ toString ((total_words : ℚ) / (total_duration / 60))])
  report2 ++
    (if failed.isEmpty then [] else
      "\n--- ФАЙЛЫ С ОШИБКАМИ ---" :: failed.map failLine)

/-- The loop body of `batch_process` (lines 237-246): process the file
into `output_dir / file_path.stem` with the default `language=None`,
`provider="auto"`, and append the result. -/
def batchStep (cfg : Config) (output_dir : String)
    (acc : List ProcResult × AudioProcessorState) (fe : String × FileExternals) :
    List ProcResult × AudioProcessorState :=
  let pr := process_file cfg fe.1 (output_dir ++ "/" ++ pathStem fe.1) none "auto" fe.2 acc.2
  (acc.1 ++ [pr.1], pr.2)

/-- `AutoSubtitleGenerator.batch_process` (lines 228-251).  The glob
iteration is file-system I/O; `files` is the matched-file sequence it
yields (per pattern, in order, `is_file()` entries only), paired with
each file's external outcomes.  After the loop the aggregate report is
generated unconditionally. -/
def batch_process (cfg : Config) (output_dir : String)
    (files : List (String × FileExternals)) (st : AudioProcessorState) :
    List ProcResult × List String × AudioProcessorState :=
  let out := files.foldl (batchStep cfg output_dir) ([], st)
  (out.1, generate_batch_report out.1, out.2)

/-! ## CLI entry point (`main.py` lines 288-342) -/

structure MainArgs where
  input : String
  output : String
  language : Option String
  provider : String
  batch : Bool
deriving Repr

/-- `main` (lines 288-342) reduced to the exit code: `sys.exit(1)` when
the input path does not exist (line 311) or generator construction fails
(line 318); the batch branch (lines 321-326) logs the success count and
falls off the end of `main` (exit 0) whatever the per-file results were;
the single-file branch exits 1 when the result is a failure (line 342)
and falls through (exit 0) on success. -/
def mainExit (inputExists : Bool) (isDir : Bool) (initRes : Except PyError Unit)
    (cfg : Config) (args : MainArgs) (batchFiles : List (String × FileExternals))
    (singleExt : FileExternals) (st : AudioProcessorState) : Nat :=
  if !inputExists then 1
  else
    match initRes with
    | .error _ => 1
    | .ok _ =>
      if args.batch && isDir then
        let _ := batch_process cfg args.output batchFiles st
        0
      else
        match (process_file cfg args.input args.output args.language args.provider
            singleExt st).1 with
        | .ok _ => 0
        | .fail _ _ => 1

/-! ## Concrete fixtures shared by witnesses and counterexamples -/

def okMeasurement : AudioMeasurement :=
  { duration := 10, sample_rate := 16000, channels := 2, format := "WAV", size_mb := 1 }

def okPrep : ProcessExternals :=
  { measure := .ok okMeasurement
    ffmpegRun := .ok ()
    fromFile := .ok { lengthMs := 10000, channels := 2, frame_rate := 44100 }
    exportPrepared := .ok ()
    normFromFile := .ok { lengthMs := 10000, channels := 1, frame_rate := 16000 }
    normExport := .ok ()
    normRemove := .ok ()
    nrImport := .ok ()
    nrLoad := .ok (160000, 16000)
    nrReduce := .ok ()
    nrWrite := .ok ()
    nrRemove := .ok () }

def fullConfig : Config :=
  { subtitle_settings := some
      { max_chars_per_line := 42, max_lines := 2, min_duration := 1, max_duration := 4 }
    audio_preprocessing := some
      { normalize := false, noise_reduction := false, channels := 1,
        target_sample_rate := 16000 }
    output_formats := some { enabled := ["srt", "vtt"] } }

def okExt : FileExternals :=
  { mkdirRes := .ok ()
    prep := okPrep
    selectRes := .ok "nexara"
    transcribeRes := .ok { provider := some "nexara", language := some "ru" }
    postRes := .ok { segments := [{ start := 0, stop := 2, text := "привет" }],
                     words := some ["привет"] }
    checkRes := .ok { total_issues := 0, errors := [], warnings := [] }
    auto_correct := id
    fmtRes := fun _ _ => .ok "content"
    writeRes := fun _ => .ok ()
    reportRes := .ok () }

/-- A run whose transcription stage raises. -/
def extFailTranscribe : FileExternals :=
  { okExt with transcribeRes := .error (.other "boom") }

/-- A run whose post-processing stage raises with the same message. -/
def extFailPost : FileExternals :=
  { okExt with postRes := .error (.other "boom") }

def st0 : AudioProcessorState := AudioProcessor.initState "tmpd"

def argsBatch : MainArgs :=
  { input := "indir", output := "out", language := none, provider := "auto", batch := true }

def argsSingle : MainArgs :=
  { input := "a.wav", output := "out", language := none, provider := "auto", batch := false }

/-- The `AudioInfo` that `AudioProcessor.process` returns for the
`okPrep` run on `a.wav` under `fullConfig`. -/
def infoPrepared : AudioInfo :=
  { source_path := "a.wav", processed_path := "out/a_prepared.wav", duration := 10,
    sample_rate := 16000, channels := 2, format := "WAV", size_mb := 1 }

/-! ## Helper lemmas -/

/-- `process_file` returns the `AudioProcessorState` it was given: no
statement of `main.py` lines 84-175 touches the temp directory. -/
theorem process_file_state (cfg : Config) (i o : String) (l : Option String)
    (p : String) (ext : FileExternals) (st : AudioProcessorState) :
    (process_file cfg i o l p ext st).2 = st := by
  unfold process_file
  cases h : processFileTry cfg st.tempDir i o l p ext <;> rfl

/-- With the `quality_report['errors']` list empty, the correction step of
`main.py` lines 119-124 leaves the segments unchanged, whatever the
corrective function is. -/
theorem correctedSegments_no_errors (ac : List Segment → List Segment)
    (qr : QualityReport) (segs : List Segment) (h : qr.errors = []) :
    correctedSegments ac qr segs = segs := by
  by_cases ht : qr.total_issues > 0 <;> simp [correctedSegments, ht, h]

/-! ## Claims -/

/-- C1 (counterexample): two `process_file` runs on the same file that
raise at different stages (transcription vs post-processing) with the
same exception text produce identical result dicts, so the failure
result cannot identify the stage at which processing failed. -/
theorem c1_counterexample :
    failedStage fullConfig "tmpd" "a.wav" "out" none "nexara" extFailTranscribe
      = some Stage.transcribe
    ∧ failedStage fullConfig "tmpd" "a.wav" "out" none "nexara" extFailPost
      = some Stage.postProcess
    ∧ Stage.transcribe ≠ Stage.postProcess
    ∧ process_file fullConfig "a.wav" "out" none "nexara" extFailTranscribe st0
      = process_file fullConfig "a.wav" "out" none "nexara" extFailPost st0 :=
  ⟨by decide, by decide, by decide, by decide⟩

/-- C1 (amended): every exception raised during any stage of per-file
processing is caught by `process_file`, which returns the failure dict
`{'success': False, 'error': str(e), 'input_file': input_path}`: the
result identifies the file and the underlying cause, but not the stage
(the stage is only logged). -/
theorem c1_amended (cfg : Config) (ipath odir : String) (lang : Option String)
    (prov : String) (ext : FileExternals) (st : AudioProcessorState)
    (s : Stage) (e : PyError)
    (h : processFileTry cfg st.tempDir ipath odir lang prov ext = Except.error (s, e)) :
    process_file cfg ipath odir lang prov ext st =
      (ProcResult.fail (PyError.str e) ipath, st) := by
  simp [process_file, h]

theorem c1_witness :
    process_file fullConfig "a.wav" "out" none "nexara" extFailTranscribe st0
      = (ProcResult.fail "boom" "a.wav", st0) :=
  c1_amended fullConfig "a.wav" "out" none "nexara" extFailTranscribe st0
    Stage.transcribe (PyError.other "boom") (by decide)

/-- C3: the auto-correction pass is applied exactly when
`total_issues > 0` and the error list is non-empty (`main.py` lines
119-124), and a run whose quality report has no errors is unaffected by
the corrective function — in particular a warnings-only report leaves
the segment sequence unchanged. -/
theorem c3_auto_correct_iff :
    (∀ (ac : List Segment → List Segment) (qr : QualityReport) (segs : List Segment),
      correctedSegments ac qr segs =
        if 0 < qr.total_issues ∧ qr.errors ≠ [] then ac segs else segs)
    ∧ (∀ (cfg : Config) (td ipath odir : String) (lang : Option String) (prov : String)
        (ext : FileExternals) (qr : QualityReport)
        (f g : List Segment → List Segment),
      ext.checkRes = Except.ok qr → qr.errors = [] →
      processFileTry cfg td ipath odir lang prov { ext with auto_correct := f } =
        processFileTry cfg td ipath odir lang prov { ext with auto_correct := g }) := by
  constructor
  · intro ac qr segs
    by_cases h1 : 0 < qr.total_issues <;> by_cases h2 : qr.errors = [] <;>
      simp [correctedSegments, h1, h2]
  · intro cfg td ipath odir lang prov ext qr f g hc he
    obtain ⟨mk, prep, sel, tr, po, ch, ac, fm, wr, rp⟩ := ext
    dsimp only at hc
    subst hc
    have hcs : ∀ (ac2 : List Segment → List Segment) (segs : List Segment),
        correctedSegments ac2 qr segs = segs :=
      fun ac2 segs => correctedSegments_no_errors ac2 qr segs he
    simp only [processFileTry, hcs]

theorem c3_witness :
    correctedSegments id { total_issues := 1, errors := [], warnings := ["too-short"] }
        [{ start := 0, stop := 1/2, text := "a" }]
      = (if 0 < (1 : Nat) ∧ ([] : List String) ≠ [] then
          id [{ start := 0, stop := 1/2, text := "a" }]
         else [({ start := 0, stop := 1/2, text := "a" } : Segment)])
    ∧ processFileTry fullConfig "tmpd" "a.wav" "out" none "nexara"
        { okExt with auto_correct := fun _ => [] } =
      processFileTry fullConfig "tmpd" "a.wav" "out" none "nexara"
        { okExt with auto_correct := fun s => s } :=
  ⟨c3_auto_correct_iff.1 id
      { total_issues := 1, errors := [], warnings := ["too-short"] }
      [{ start := 0, stop := 1/2, text := "a" }],
   c3_auto_correct_iff.2 fullConfig "tmpd" "a.wav" "out" none "nexara" okExt
      { total_issues := 0, errors := [], warnings := [] }
      (fun _ => []) (fun s => s) rfl rfl⟩

/-- C6: when loading the configuration file fails for any reason, the
constructor installs the built-in default configuration instead of
propagating the exception; a successful load is installed verbatim
(`main.py` lines 29-41). -/
theorem c6_default_on_failure :
    (∀ (e : PyError),
      (AutoSubtitleGenerator.init (Except.error e)).config = get_default_config)
    ∧ (∀ (c : Config), (AutoSubtitleGenerator.init (Except.ok c)).config = c) :=
  ⟨fun _ => rfl, fun _ => rfl⟩

/-- C7 (counterexample): a pipeline run that fails early (unsupported
input format) ends with the temp directory still present — the failure
exit path of `process_file` performs no cleanup. -/
theorem c7_counterexample :
    ((process_file fullConfig "a.xyz" "out" none "auto" okExt st0).1).success = false
    ∧ ((process_file fullConfig "a.xyz" "out" none "auto" okExt st0).2).tempDirPresent
        = true :=
  ⟨by decide, by decide⟩

/-- C7 (amended): no exit path of a file's pipeline removes the temp
directory — `process_file` returns the processor state untouched on
success and on failure alike; the directory is removed only by
`cleanup_temp_files`, whose sole caller is the destructor `__del__`. -/
theorem c7_amended :
    (∀ (cfg : Config) (ipath odir : String) (lang : Option String) (prov : String)
        (ext : FileExternals) (st : AudioProcessorState),
      (process_file cfg ipath odir lang prov ext st).2 = st)
    ∧ (∀ (st2 : AudioProcessorState),
      cleanup_temp_files st2 (Except.ok ()) =
        { tempDir := st2.tempDir, tempDirPresent := false }) := by
  constructor
  · intro cfg ipath odir lang prov ext st
    exact process_file_state cfg ipath odir lang prov ext st
  · intro st2
    obtain ⟨d, p⟩ := st2
    cases p <;> rfl

/-- C10: `normalize_audio` and `reduce_noise` never raise — both are total
functions of their call outcomes — and whenever any internal step fails
(loading, export, the `noisereduce` import, noise processing, writing, or
removing a temporary original) the original input path is returned
unchanged (`obrabotka.py` lines 189-218 and 220-265). -/
theorem c10_enhancement_fallback :
    (∀ (td p : String) (fr : Except PyError AudioSeg) (er rr : Except PyError Unit),
      (eIsOk fr = false ∨ eIsOk er = false ∨
        (strStartsWith p td = true ∧ eIsOk rr = false)) →
      normalize_audio td p fr er rr = p)
    ∧ (∀ (td p : String) (ir : Except PyError Unit) (lr : Except PyError (Nat × Nat))
        (nr wr rr : Except PyError Unit),
      (eIsOk ir = false ∨ eIsOk lr = false ∨ eIsOk nr = false ∨ eIsOk wr = false ∨
        (strStartsWith p td = true ∧ eIsOk rr = false)) →
      reduce_noise td p ir lr nr wr rr = p) := by
  constructor
  · intro td p fr er rr h
    cases fr <;> cases er <;> cases rr <;> simp_all [normalize_audio, eIsOk]
  · intro td p ir lr nr wr rr h
    cases ir <;> cases lr <;> cases nr <;> cases wr <;> cases rr <;>
      simp_all [reduce_noise, eIsOk]

theorem c10_witness :
    normalize_audio "tmpd" "a.wav" (Except.error (PyError.other "load failed"))
        (Except.ok ()) (Except.ok ()) = "a.wav"
    ∧ reduce_noise "tmpd" "a.wav" (Except.error (PyError.importError "no noisereduce"))
        (Except.ok (1, 1)) (Except.ok ()) (Except.ok ()) (Except.ok ()) = "a.wav" :=
  ⟨c10_enhancement_fallback.1 "tmpd" "a.wav" (Except.error (PyError.other "load failed"))
      (Except.ok ()) (Except.ok ()) (Or.inl rfl),
   c10_enhancement_fallback.2 "tmpd" "a.wav" (Except.error (PyError.importError "no noisereduce"))
      (Except.ok (1, 1)) (Except.ok ()) (Except.ok ()) (Except.ok ()) (Or.inl rfl)⟩

/-- C4 (counterexample): the `AudioInfo` created by `analyze_audio` has
`processed_path = ""`, and the very same per-file preparation pass then
reassigns that field (`obrabotka.py` line 68), so `process` returns an
`AudioInfo` whose `processed_path` differs from its value at creation. -/
theorem c4_counterexample :
    (Except.toOption (AudioProcessor.process fullConfig "tmpd" "a.wav" "out" okPrep)).map
        AudioInfo.processed_path = some "out/a_prepared.wav"
    ∧ (Except.toOption (analyze_audio "a.wav" (Except.ok okMeasurement))).map
        AudioInfo.processed_path = some ""
    ∧ ("out/a_prepared.wav" : String) ≠ "" :=
  ⟨by decide, by decide, by decide⟩

/-- C4 (amended): the `AudioInfo` is produced once per file by
`analyze_audio`, and afterwards only its `processed_path` field is
reassigned (lines 68, 73, 77): every other field of the value returned by
`AudioProcessor.process` equals its value at creation. -/
theorem c4_amended (cfg : Config) (td ipath odir : String) (px : ProcessExternals)
    (m : AudioMeasurement) (info : AudioInfo)
    (h1 : px.measure = Except.ok m)
    (h2 : AudioProcessor.process cfg td ipath odir px = Except.ok info) :
    info.source_path = ipath ∧ info.duration = m.duration ∧
    info.sample_rate = m.sample_rate ∧ info.channels = m.channels ∧
    info.format = m.format ∧ info.size_mb = m.size_mb := by
  unfold AudioProcessor.process at h2
  by_cases hs : is_supported_format ipath
  · simp only [hs, Bool.not_true, Bool.false_eq_true, if_false] at h2
    rw [h1] at h2
    simp only [analyze_audio] at h2
    cases hp : (if is_video_file ipath then
        extract_audio_from_video cfg ipath odir px.ffmpegRun
      else prepare_audio_file cfg ipath odir px.fromFile px.exportPrepared) with
    | error e => rw [hp] at h2; simp at h2
    | ok processed =>
      rw [hp] at h2
      cases hap : cfg.getAudioPreprocessing with
      | error e => rw [hap] at h2; simp at h2
      | ok ap =>
        rw [hap] at h2
        simp only [Except.ok.injEq] at h2
        subst h2
        by_cases hn : ap.normalize <;> by_cases hr : ap.noise_reduction <;>
          simp [hn, hr]
  · simp [hs] at h2

theorem c4_witness :
    infoPrepared.source_path = "a.wav"
    ∧ infoPrepared.duration = okMeasurement.duration
    ∧ infoPrepared.sample_rate = okMeasurement.sample_rate
    ∧ infoPrepared.channels = okMeasurement.channels
    ∧ infoPrepared.format = okMeasurement.format
    ∧ infoPrepared.size_mb = okMeasurement.size_mb :=
  c4_amended fullConfig "tmpd" "a.wav" "out" okPrep okMeasurement infoPrepared
    (by decide) (by decide)

/-- Under the default configuration the audio-preparation step always
raises: the `audio_preprocessing` lookups of `obrabotka.py` cannot
succeed, and the earlier checks only fail sooner. -/
theorem default_process_always_fails (td ipath odir : String) (px : ProcessExternals) :
    ∃ e, AudioProcessor.process get_default_config td ipath odir px = Except.error e := by
  unfold AudioProcessor.process
  by_cases hs : is_supported_format ipath
  · simp only [hs, Bool.not_true, Bool.false_eq_true, if_false]
    cases hm : px.measure with
    | error e => exact ⟨e, rfl⟩
    | ok m =>
      simp only [analyze_audio]
      by_cases hv : is_video_file ipath
      · simp only [hv, if_true]
        simp [extract_audio_from_video, Config.getAudioPreprocessing, get_default_config]
      · simp only [hv, if_false]
        cases hf : px.fromFile with
        | error e =>
          simp [prepare_audio_file, hf]
        | ok a =>
          simp [prepare_audio_file, hf, Config.getAudioPreprocessing, get_default_config]
  · simp [hs]

/-- Under the default configuration the whole `try` body of
`process_file` raises. -/
theorem default_try_fails (td ipath odir : String) (lang : Option String)
    (prov : String) (ext : FileExternals) :
    ∃ s e, processFileTry get_default_config td ipath odir lang prov ext =
      Except.error (s, e) := by
  unfold processFileTry
  cases hm : ext.mkdirRes with
  | error e => exact ⟨Stage.createOutput, e, rfl⟩
  | ok u =>
    obtain ⟨e, he⟩ := default_process_always_fails td ipath odir ext.prep
    rw [he]
    exact ⟨Stage.prepareAudio, e, rfl⟩

/-- C8 (amended): the built-in default configuration contains only the
`subtitle_settings` section (42 / 2 / 1.0 / 4.0) and neither
`audio_preprocessing` nor `output_formats`; consequently, whenever the
default configuration is in effect, every call to `process_file` fails
and returns a failed result.  The internal exception is the `KeyError`
at the `audio_preprocessing` lookup whenever the input has a supported
format and the steps preceding that lookup (output dir creation, audio
analysis and, for non-video files, loading) succeed; inputs that fail
earlier fail with that earlier exception instead. -/
theorem c8_amended :
    (get_default_config.subtitle_settings = some
        { max_chars_per_line := 42, max_lines := 2, min_duration := 1, max_duration := 4 }
      ∧ get_default_config.audio_preprocessing = none
      ∧ get_default_config.output_formats = none)
    ∧ (∀ (ipath odir : String) (lang : Option String) (prov : String)
        (ext : FileExternals) (st : AudioProcessorState),
      ((process_file get_default_config ipath odir lang prov ext st).1).success = false)
    ∧ (∀ (td ipath odir : String) (lang : Option String) (prov : String)
        (ext : FileExternals) (m : AudioMeasurement),
      is_supported_format ipath = true →
      ext.mkdirRes = Except.ok () →
      ext.prep.measure = Except.ok m →
      (is_video_file ipath = true ∨ eIsOk ext.prep.fromFile = true) →
      raisedError get_default_config td ipath odir lang prov ext =
        some (PyError.keyError "audio_preprocessing")) := by
  refine ⟨⟨rfl, rfl, rfl⟩, ?_, ?_⟩
  · intro ipath odir lang prov ext st
    obtain ⟨s, e, he⟩ := default_try_fails st.tempDir ipath odir lang prov ext
    simp [process_file, he, ProcResult.success]
  · intro td ipath odir lang prov ext m hs hmk hms hvf
    have hap : AudioProcessor.process get_default_config td ipath odir ext.prep =
        Except.error (PyError.keyError "audio_preprocessing") := by
      unfold AudioProcessor.process
      simp only [hs, Bool.not_true, Bool.false_eq_true, if_false]
      rw [hms]
      simp only [analyze_audio]
      by_cases hv : is_video_file ipath
      · simp [hv, extract_audio_from_video, Config.getAudioPreprocessing,
          get_default_config]
      · rcases hvf with hvt | hff
        · exact absurd hvt (by simp [hv])
        · cases hf : ext.prep.fromFile with
          | error e => rw [hf] at hff; simp [eIsOk] at hff
          | ok a =>
            simp [hv, prepare_audio_file, hf, Config.getAudioPreprocessing,
              get_default_config]
    unfold raisedError processFileTry
    rw [hmk, hap]

/-- C8 (counterexample to the claim as stated): under the default
configuration an unsupported-format input fails with the `ValueError` of
the format check, not with a `KeyError`, though the call still returns a
failed result. -/
theorem c8_counterexample :
    raisedError get_default_config "tmpd" "a.xyz" "out" none "auto" okExt
      = some (PyError.valueError "Неподдерживаемый формат файла: a.xyz")
    ∧ PyError.isKeyError (PyError.valueError "Неподдерживаемый формат файла: a.xyz") = false
    ∧ ((process_file get_default_config "a.xyz" "out" none "auto" okExt st0).1).success
        = false :=
  ⟨by decide, by decide, by decide⟩

theorem c8_witness :
    ((process_file get_default_config "a.wav" "out" none "auto" okExt st0).1).success = false
    ∧ raisedError get_default_config "tmpd" "a.wav" "out" none "auto" okExt =
        some (PyError.keyError "audio_preprocessing") :=
  ⟨c8_amended.2.1 "a.wav" "out" none "auto" okExt st0,
   c8_amended.2.2 "tmpd" "a.wav" "out" none "auto" okExt okMeasurement (by decide)
      (by decide) (by decide) (Or.inr (by decide))⟩

/-- C5 (counterexample to the claim as stated): a batch run in which every
file fails still exits with code 0 (so exit 0 is not equivalent to "at
least one success"), and a failing single-file run exits with code 1 even
though the input exists and initialization succeeded (so exit 1 is not
equivalent to "input missing or initialization failed"). -/
theorem c5_counterexample :
    mainExit true true (Except.ok ()) fullConfig argsBatch
        [("a.wav", extFailTranscribe)] okExt st0 = 0
    ∧ (((batch_process fullConfig "out" [("a.wav", extFailTranscribe)] st0).1).filter
        (fun r => r.success)).length = 0
    ∧ ¬ ((mainExit true true (Except.ok ()) fullConfig argsBatch
          [("a.wav", extFailTranscribe)] okExt st0 = 0) ↔
        0 < (((batch_process fullConfig "out" [("a.wav", extFailTranscribe)] st0).1).filter
          (fun r => r.success)).length)
    ∧ mainExit true false (Except.ok ()) fullConfig argsSingle [] extFailTranscribe st0 = 1 :=
  ⟨by decide, by decide, by decide, by decide⟩

/-- C5 (amended): the CLI exits 1 exactly when the input path does not
exist, generator initialization fails, or a non-batch run's single file
fails; in every other case — including a batch run in which every file
failed — it exits 0 (`main.py` lines 306-342). -/
theorem c5_amended (ie idir : Bool) (ir : Except PyError Unit) (cfg : Config)
    (args : MainArgs) (bf : List (String × FileExternals)) (se : FileExternals)
    (st : AudioProcessorState) :
    (mainExit ie idir ir cfg args bf se st = 1 ↔
      (ie = false ∨ eIsOk ir = false ∨
        ((args.batch && idir) = false ∧
          ((process_file cfg args.input args.output args.language args.provider
              se st).1).success = false)))
    ∧ (mainExit ie idir ir cfg args bf se st = 0 ∨
        mainExit ie idir ir cfg args bf se st = 1) := by
  cases ie with
  | false => simp [mainExit]
  | true =>
    cases ir with
    | error e => simp [mainExit, eIsOk]
    | ok u =>
      cases hbi : args.batch && idir with
      | true => simp [mainExit, hbi, eIsOk]
      | false =>
        cases hpf : (process_file cfg args.input args.output args.language
            args.provider se st).1 with
        | ok r => simp [mainExit, hbi, hpf, eIsOk, ProcResult.success]
        | fail e f => simp [mainExit, hbi, hpf, eIsOk, ProcResult.success]

/-- The batch loop is a map: each file is processed independently with
the state returned unchanged, so one file's outcome never affects
another's. -/
theorem batch_foldl (cfg : Config) (odir : String)
    (files : List (String × FileExternals)) (acc : List ProcResult)
    (st : AudioProcessorState) :
    files.foldl (batchStep cfg odir) (acc, st) =
      (acc ++ files.map (fun fe =>
        (process_file cfg fe.1 (odir ++ "/" ++ pathStem fe.1) none "auto" fe.2 st).1),
       st) := by
  induction files generalizing acc with
  | nil => simp
  | cons fe rest ih =>
    have hb : batchStep cfg odir (acc, st) fe =
        (acc ++ [(process_file cfg fe.1 (odir ++ "/" ++ pathStem fe.1) none "auto"
            fe.2 st).1], st) := by
      simp [batchStep, process_file_state]
    simp only [List.foldl_cons, List.map_cons, hb, ih]
    simp

/-- The aggregate report always contains its success and failure count
lines. -/
theorem mem_report_counts (results : List ProcResult) :
    ("Успешно: " ++ toString (results.filter (fun r => r.success)).length)
      ∈ generate_batch_report results
    ∧ ("С ошибками: " ++ toString (results.filter (fun r => !r.success)).length)
      ∈ generate_batch_report results := by
  simp only [generate_batch_report]
  constructor <;> exact List.mem_append_left _ (List.mem_append_left _ (by simp))

/-- Every failed result contributes its failure line to the aggregate
report. -/
theorem mem_report_fail (results : List ProcResult) (e f : String)
    (h : ProcResult.fail e f ∈ results) :
    ("  • " ++ f ++ ": " ++ e) ∈ generate_batch_report results := by
  have hf : ProcResult.fail e f ∈ results.filter (fun r => !r.success) := by
    simp [List.mem_filter, h, ProcResult.success]
  have hne : (results.filter (fun r => !r.success)).isEmpty = false := by
    cases hl : results.filter (fun r => !r.success) with
    | nil => rw [hl] at hf; exact absurd hf (List.not_mem_nil _)
    | cons a l => rfl
  simp only [generate_batch_report, hne]
  refine List.mem_append_right _ ?_
  simp only [Bool.false_eq_true, if_false]
  refine List.mem_cons_of_mem _ ?_
  have hm := List.mem_map_of_mem failLine hf
  simpa [failLine, ProcResult.input_file, ProcResult.errorMsg] using hm

/-- C2: `batch_process` appends exactly one result per matched file and
each result is that file's own `process_file` outcome (so one file's
failure cannot prevent or alter the processing of the others), and the
aggregate report is always generated, containing the success and failure
count lines and one failure line per failed file with that file's path
and error (`main.py` lines 228-286). -/
theorem c2_batch (cfg : Config) (odir : String)
    (files : List (String × FileExternals)) (st : AudioProcessorState) :
    (batch_process cfg odir files st).1 =
      files.map (fun fe =>
        (process_file cfg fe.1 (odir ++ "/" ++ pathStem fe.1) none "auto" fe.2 st).1)
    ∧ ((batch_process cfg odir files st).1).length = files.length
    ∧ (batch_process cfg odir files st).2.1 =
        generate_batch_report (batch_process cfg odir files st).1
    ∧ ("Успешно: " ++ toString (((batch_process cfg odir files st).1).filter
          (fun r => r.success)).length) ∈ (batch_process cfg odir files st).2.1
    ∧ ("С ошибками: " ++ toString (((batch_process cfg odir files st).1).filter
          (fun r => !r.success)).length) ∈ (batch_process cfg odir files st).2.1
    ∧ (∀ (e f : String), ProcResult.fail e f ∈ (batch_process cfg odir files st).1 →
        ("  • " ++ f ++ ": " ++ e) ∈ (batch_process cfg odir files st).2.1) := by
  have h1 : (batch_process cfg odir files st).1 =
      files.map (fun fe =>
        (process_file cfg fe.1 (odir ++ "/" ++ pathStem fe.1) none "auto" fe.2 st).1) := by
    simp [batch_process, batch_foldl]
  have h3 : (batch_process cfg odir files st).2.1 =
      generate_batch_report (batch_process cfg odir files st).1 := by
    simp [batch_process]
  refine ⟨h1, by rw [h1]; simp, h3, ?_, ?_, ?_⟩
  · rw [h3]; exact (mem_report_counts _).1
  · rw [h3]; exact (mem_report_counts _).2
  · intro e f h
    rw [h3]; exact mem_report_fail _ e f h

theorem c2_witness :
    ("  • " ++ "a.wav" ++ ": " ++ "boom") ∈
      (batch_process fullConfig "out" [("a.wav", extFailTranscribe), ("b.wav", okExt)]
        st0).2.1 :=
  (c2_batch fullConfig "out" [("a.wav", extFailTranscribe), ("b.wav", okExt)]
    st0).2.2.2.2.2 "boom" "a.wav" (by decide)

/-- Ceiling division bound: the last multiple covers the whole range. -/
theorem ceil_mul_ge (d s : Nat) (hs : 0 < s) : d ≤ ((d + s - 1) / s) * s := by
  have hmod := Nat.div_add_mod (d + s - 1) s
  have hlt := Nat.mod_lt (d + s - 1) hs
  rw [mul_comm]
  generalize ht : s * ((d + s - 1) / s) = t at hmod ⊢
  generalize hr : (d + s - 1) % s = r at hmod hlt
  omega

/-- Ceiling division bound: the previous multiple does not. -/
theorem ceil_pred_mul_lt (d s : Nat) (hs : 0 < s) (hd : 0 < d) :
    (((d + s - 1) / s) - 1) * s < d := by
  have hmod := Nat.div_add_mod (d + s - 1) s
  have hlt := Nat.mod_lt (d + s - 1) hs
  rw [Nat.sub_mul, one_mul, mul_comm]
  generalize ht : s * ((d + s - 1) / s) = t at hmod ⊢
  generalize hr : (d + s - 1) % s = r at hmod hlt
  omega

/-- `(d + s - 1) / s` is the rational ceiling of `d / s`. -/
theorem nat_ceil_div_eq (d s : Nat) (hs : 0 < s) :
    ⌈(d : ℚ) / (s : ℚ)⌉₊ = (d + s - 1) / s := by
  rcases Nat.eq_zero_or_pos d with hd | hd
  · subst hd
    rw [Nat.cast_zero, zero_div, Nat.ceil_zero, Nat.zero_add,
      Nat.div_eq_of_lt (by omega)]
  · have hq1 : (d + s - 1) / s ≠ 0 := by
      have h1 : 1 ≤ (d + s - 1) / s := (Nat.one_le_div_iff hs).mpr (by omega)
      omega
    rw [Nat.ceil_eq_iff hq1]
    have hs2 : (0 : ℚ) < (s : ℚ) := by exact_mod_cast hs
    constructor
    · rw [lt_div_iff₀ hs2]
      exact_mod_cast ceil_pred_mul_lt d s hs hd
    · rw [div_le_iff₀ hs2]
      exact_mod_cast ceil_mul_ge d s hs

/-- The length of the computed part list. -/
theorem split_length (d m : Nat) :
    (split_large_file d m).length = (d + m * 1000 - 1) / (m * 1000) := by
  simp [split_large_file, pyRangeStep]

/-- C9: for a recording of `d` milliseconds and `max_duration = m > 0`
seconds, `split_large_file` produces exactly `⌈d / (1000·m)⌉` parts;
part `k` covers `[k·1000·m, min((k+1)·1000·m, d))`; the parts are
pairwise disjoint, contiguous, each at most `m` seconds (`1000·m` ms)
long, start at `0` and end at `d`, so together they cover the whole
recording (`obrabotka.py` lines 267-308). -/
theorem c9_split (d m : Nat) (hm : 0 < m) :
    (split_large_file d m).length = ⌈(d : ℚ) / ((1000 : ℚ) * (m : ℚ))⌉₊
    ∧ (∀ (k : Nat) (hk : k < (split_large_file d m).length),
        (split_large_file d m).get ⟨k, hk⟩ =
          (k * (m * 1000), min ((k + 1) * (m * 1000)) d))
    ∧ (∀ (j k : Nat) (hj : j < (split_large_file d m).length)
        (hk : k < (split_large_file d m).length), j < k →
        ((split_large_file d m).get ⟨j, hj⟩).2 ≤ ((split_large_file d m).get ⟨k, hk⟩).1)
    ∧ (∀ (k : Nat) (hk : k < (split_large_file d m).length)
        (hk1 : k + 1 < (split_large_file d m).length),
        ((split_large_file d m).get ⟨k + 1, hk1⟩).1 =
          ((split_large_file d m).get ⟨k, hk⟩).2)
    ∧ (∀ (k : Nat) (hk : k < (split_large_file d m).length),
        ((split_large_file d m).get ⟨k, hk⟩).2 - ((split_large_file d m).get ⟨k, hk⟩).1
          ≤ m * 1000)
    ∧ (0 < d → 0 < (split_large_file d m).length)
    ∧ (∀ (h0 : 0 < (split_large_file d m).length),
        ((split_large_file d m).get ⟨0, h0⟩).1 = 0)
    ∧ (∀ (hlast : (split_large_file d m).length - 1 < (split_large_file d m).length),
        0 < d →
        ((split_large_file d m).get
          ⟨(split_large_file d m).length - 1, hlast⟩).2 = d) := by
  have hs : 0 < m * 1000 := by omega
  have hlen := split_length d m
  have hget : ∀ (k : Nat) (hk : k < (split_large_file d m).length),
      (split_large_file d m).get ⟨k, hk⟩ =
        (k * (m * 1000), min ((k + 1) * (m * 1000)) d) := by
    intro k hk
    simp only [split_large_file, pyRangeStep, List.get_eq_getElem, List.getElem_map,
      List.getElem_range]
    simp [Nat.succ_mul]
  have hidx : ∀ (j : Nat), j < (split_large_file d m).length → j * (m * 1000) < d := by
    intro j hj
    rw [hlen] at hj
    have hd0 : 0 < d := by
      by_contra h0
      have hdz : d = 0 := by omega
      rw [hdz, Nat.div_eq_of_lt (by omega)] at hj
      omega
    have hle : j ≤ (d + m * 1000 - 1) / (m * 1000) - 1 := by omega
    calc j * (m * 1000) ≤ ((d + m * 1000 - 1) / (m * 1000) - 1) * (m * 1000) :=
          Nat.mul_le_mul_right _ hle
      _ < d := ceil_pred_mul_lt d (m * 1000) hs hd0
  refine ⟨?_, hget, ?_, ?_, ?_, ?_, ?_, ?_⟩
  · rw [hlen, ← nat_ceil_div_eq d (m * 1000) hs]
    have hc : ((m * 1000 : Nat) : ℚ) = (1000 : ℚ) * (m : ℚ) := by
      push_cast; ring
    rw [hc]
  · intro j k hj hk hjk
    rw [hget j hj, hget k hk]
    have h1 : (j + 1) * (m * 1000) ≤ k * (m * 1000) :=
      Nat.mul_le_mul_right _ (by omega)
    calc min ((j + 1) * (m * 1000)) d ≤ (j + 1) * (m * 1000) := Nat.min_le_left _ _
      _ ≤ k * (m * 1000) := h1
  · intro k hk hk1
    rw [hget (k + 1) hk1, hget k hk]
    have h1 : (k + 1) * (m * 1000) < d := hidx (k + 1) hk1
    simp [Nat.min_eq_left (Nat.le_of_lt h1)]
  · intro k hk
    rw [hget k hk]
    have h1 : min ((k + 1) * (m * 1000)) d ≤ (k + 1) * (m * 1000) := Nat.min_le_left _ _
    have h2 : (k + 1) * (m * 1000) = k * (m * 1000) + m * 1000 := by ring
    omega
  · intro hd
    rw [hlen]
    have h1 : 1 ≤ (d + m * 1000 - 1) / (m * 1000) :=
      (Nat.one_le_div_iff hs).mpr (by omega)
    omega
  · intro h0
    rw [hget 0 h0]
    simp
  · intro hlast hd
    rw [hget _ hlast]
    have hpos : 0 < (split_large_file d m).length := by omega
    have hsub : (split_large_file d m).length - 1 + 1 = (split_large_file d m).length := by
      omega
    rw [hsub, hlen]
    exact Nat.min_eq_right (ceil_mul_ge d (m * 1000) hs)

theorem c9_witness :
    (split_large_file 2500 1).length = ⌈(2500 : ℚ) / ((1000 : ℚ) * (1 : ℚ))⌉₊
    ∧ (split_large_file 2500 1).get ⟨2, by decide⟩ =
        (2 * (1 * 1000), min ((2 + 1) * (1 * 1000)) 2500) :=
  ⟨(c9_split 2500 1 (by decide)).1,
   (c9_split 2500 1 (by decide)).2.1 2 (by decide)⟩

theorem c5_witness :
    mainExit true true (Except.ok ()) fullConfig argsBatch [] okExt st0 = 0 ∨
    mainExit true true (Except.ok ()) fullConfig argsBatch [] okExt st0 = 1 :=
  (c5_amended true true (Except.ok ()) fullConfig argsBatch [] okExt st0).2
